import Mathlib

/-!
Shallow embedding of the `GPUBuffer` mapping state machine from
`components/script/dom/gpubuffer.rs`.

Bytes are modelled as `Nat`, byte vectors as `List Nat`, `Range<u64>` as a
pair `(start, end)`, JS array-buffer heap objects as opaque `Nat` handles and
the single outstanding map promise as an optional `Nat` identifier.  A Rust
panic (an `unwrap` on `None` or an out-of-bounds slice) is modelled by the
surrounding operation returning `none`; a successful run returns `some` of a
result record carrying the updated buffer, the promise settlements performed,
the JS buffers detached and the protocol messages successfully sent.  The
reliability of each `channel.0.send` call is an explicit `Bool` parameter
(`true` = the send succeeded); a failed send is only logged by the source, so
it merely drops the message from the `sent` list.
-/

set_option autoImplicit false

/-- Buffer lifecycle states, from `enum GPUBufferState`. -/
inductive GPUBufferState where
  | Mapped
  | MappedAtCreation
  | MappingPending
  | Unmapped
  | Destroyed
deriving DecidableEq

/-- `const RANGE_OFFSET_ALIGN_MASK: u64 = 8`. -/
def RANGE_OFFSET_ALIGN_MASK : Nat := 8

/-- `const RANGE_SIZE_ALIGN_MASK: u64 = 4`. -/
def RANGE_SIZE_ALIGN_MASK : Nat := 4

/-- `GPUMapModeConstants::READ` (WebIDL value 0x0001). -/
def GPUMapModeConstants.READ : Nat := 1

/-- `GPUMapModeConstants::WRITE` (WebIDL value 0x0002). -/
def GPUMapModeConstants.WRITE : Nat := 2

/-- The two error values a promise can be rejected with or a fallible method
can return, from `bindings::error::Error` (only the variants this module
uses). -/
inductive Error where
  | operation
  | abort
deriving DecidableEq

/-- `Result<T, Error>`, the source's `Fallible`. -/
inductive Fallible (α : Type) where
  | Ok (a : α)
  | Err (e : Error)
deriving DecidableEq

/-- `HostMap` from `webgpu::wgpu::device`. -/
inductive HostMap where
  | Read
  | Write
deriving DecidableEq

/-- The `WebGPURequest` protocol messages this module sends. -/
inductive WebGPURequest where
  | UnmapBuffer (array_buffer : List Nat) (is_map_read : Bool)
      (offset : Nat) (size : Nat)
  | DestroyBuffer
  | BufferMapAsync (host_map : HostMap) (map_range : Nat × Nat)
  | BufferMapComplete
deriving DecidableEq

/-- `struct GPUBufferMapInfo`. -/
structure GPUBufferMapInfo where
  mapping : List Nat
  mapping_range : Nat × Nat
  mapped_ranges : List (Nat × Nat)
  js_buffers : List Nat
  map_mode : Option Nat
deriving DecidableEq

/-- The mutable portion of `struct GPUBuffer` the state machine acts on:
`state`, the immutable creation `size`, the single `map_promise` slot and the
`map_info` cell. -/
structure GPUBuffer where
  state : GPUBufferState
  size : Nat
  map_promise : Option Nat
  map_info : Option GPUBufferMapInfo
deriving DecidableEq

/-- Result of `GPUBuffer::Unmap` (which always returns `Ok(())` when it does
not panic): the updated buffer, the rejection applied to the pending promise
it took (if any), the JS buffers detached via `DetachArrayBuffer`, and the
messages sent. -/
structure UnmapResult where
  buffer : GPUBuffer
  rejected : Option Error
  detached : List Nat
  sent : List WebGPURequest
deriving DecidableEq

/-- `GPUBuffer::Unmap`.  `none` models a panic: the `Mapped` arm unwraps
`map_info` and the `MappingPending` arm unwraps `map_promise`. -/
def Unmap (b : GPUBuffer) (sendOk : Bool) : Option UnmapResult :=
  match b.state with
  | GPUBufferState.Unmapped | GPUBufferState.Destroyed =>
    some { buffer := b, rejected := none, detached := [], sent := [] }
  | GPUBufferState.Mapped | GPUBufferState.MappedAtCreation =>
    match b.map_info with
    | none => none
    | some m_info =>
      let m_range := m_info.mapping_range
      let msg := WebGPURequest.UnmapBuffer m_info.mapping
        (decide (m_info.map_mode = some GPUMapModeConstants.READ))
        m_range.1 (m_range.2 - m_range.1)
      some { buffer := { b with state := GPUBufferState.Unmapped, map_info := none },
             rejected := none,
             detached := m_info.js_buffers,
             sent := if sendOk then [msg] else [] }
  | GPUBufferState.MappingPending =>
    match b.map_promise with
    | none => none
    | some _ =>
      some { buffer := { b with state := GPUBufferState.Unmapped,
                                map_info := none, map_promise := none },
             rejected := some Error.operation,
             detached := [],
             sent := [] }

/-- Result of `GPUBuffer::Destroy`, same shape as `UnmapResult`. -/
structure DestroyResult where
  buffer : GPUBuffer
  rejected : Option Error
  detached : List Nat
  sent : List WebGPURequest
deriving DecidableEq

/-- `GPUBuffer::Destroy`.  Note the source's `match` only runs `Unmap` for
`Mapped | MappedAtCreation`; the wildcard arm (covering `Unmapped` and
`MappingPending`) does nothing before the `DestroyBuffer` send, so a pending
promise and `map_info` are left untouched. -/
def Destroy (b : GPUBuffer) (sendUnmapOk : Bool) (sendDestroyOk : Bool) :
    Option DestroyResult :=
  match b.state with
  | GPUBufferState.Mapped | GPUBufferState.MappedAtCreation =>
    match Unmap b sendUnmapOk with
    | none => none
    | some u =>
      some { buffer := { u.buffer with state := GPUBufferState.Destroyed },
             rejected := u.rejected,
             detached := u.detached,
             sent := u.sent ++
               (if sendDestroyOk then [WebGPURequest.DestroyBuffer] else []) }
  | GPUBufferState.Destroyed =>
    some { buffer := b, rejected := none, detached := [], sent := [] }
  | _ =>
    some { buffer := { b with state := GPUBufferState.Destroyed },
           rejected := none,
           detached := [],
           sent := if sendDestroyOk then [WebGPURequest.DestroyBuffer] else [] }

/-- Result of `GPUBuffer::MapAsync`: the updated buffer, the immediate
rejection (if any) of the freshly created promise — `none` means the promise
was stored pending in `map_promise` — the validation error reported to the
device error scope via `handle_server_msg`, and the messages sent. -/
structure MapAsyncResult where
  buffer : GPUBuffer
  rejected : Option Error
  validation : Option String
  sent : List WebGPURequest
deriving DecidableEq

/-- The `match mode` in `MapAsync`: only the exact `READ` / `WRITE` constants
map to a `HostMap`. -/
def hostMapOf (mode : Nat) : Option HostMap :=
  if mode = GPUMapModeConstants.READ then some HostMap.Read
  else if mode = GPUMapModeConstants.WRITE then some HostMap.Write
  else none

/-- `GPUBuffer::MapAsync`.  `pid` is the identity of the freshly created
promise. -/
def MapAsync (b : GPUBuffer) (pid : Nat) (mode : Nat) (offset : Nat)
    (size : Option Nat) (sendOk : Bool) : MapAsyncResult :=
  match (match size with
         | some s => some s
         | none => if offset ≥ b.size then none else some (b.size - offset)) with
  | none =>
    { buffer := b, rejected := some Error.operation, validation := none, sent := [] }
  | some range_size =>
    if b.state ≠ GPUBufferState.Unmapped then
      { buffer := b, rejected := some Error.abort,
        validation := some "Buffer is not Unmapped", sent := [] }
    else
      match hostMapOf mode with
      | none =>
        { buffer := b, rejected := some Error.abort,
          validation := some "Invalid MapModeFlags", sent := [] }
      | some host_map =>
        let map_range := (offset, offset + range_size)
        if sendOk then
          { buffer := { b with
              state := GPUBufferState.MappingPending,
              map_info := some { mapping := [], mapping_range := map_range,
                                 mapped_ranges := [], js_buffers := [],
                                 map_mode := some mode },
              map_promise := some pid },
            rejected := none, validation := none,
            sent := [WebGPURequest.BufferMapAsync host_map map_range] }
        else
          { buffer := b, rejected := some Error.operation,
            validation := none, sent := [] }

/-- `GPUBuffer::GetMappedRange`.  `jsId` is the handle of the JS array buffer
a successful call creates.  `none` models a panic: the `unwrap` of `map_info`,
or the slice `mapping[offset..m_end]` when the storage vector is shorter than
`m_end` (the source indexes the storage with absolute buffer offsets). -/
def GetMappedRange (b : GPUBuffer) (offset : Nat) (size : Option Nat)
    (jsId : Nat) : Option (Fallible GPUBuffer) :=
  match (match size with
         | some s => some s
         | none => if offset ≥ b.size then none else some (b.size - offset)) with
  | none => some (Fallible.Err Error.operation)
  | some range_size =>
    let m_end := offset + range_size
    match b.map_info with
    | none => none
    | some m_info =>
      let validState : Bool :=
        match b.state with
        | GPUBufferState.Mapped | GPUBufferState.MappedAtCreation => true
        | _ => false
      let valid : Bool := validState &&
        (decide (offset % RANGE_OFFSET_ALIGN_MASK = 0) &&
          decide (range_size % RANGE_SIZE_ALIGN_MASK = 0) &&
          decide (offset ≥ m_info.mapping_range.1) &&
          decide (m_end ≤ m_info.mapping_range.2)) &&
        m_info.mapped_ranges.all
          (fun range => decide (range.1 ≥ m_end) || decide (range.2 ≤ offset))
      if valid then
        if m_end ≤ m_info.mapping.length then
          some (Fallible.Ok { b with map_info := some { m_info with
            mapped_ranges := m_info.mapped_ranges ++ [(offset, m_end)],
            js_buffers := m_info.js_buffers ++ [jsId] } })
        else none
      else some (Fallible.Err Error.operation)

/-- The `WebGPUResponse` variants relevant to `handle_response`. -/
inductive WebGPUResponse where
  | BufferMapAsyncBytes (bytes : List Nat)
  | other
deriving DecidableEq

/-- Result of `AsyncWGPUListener::handle_response` for `GPUBuffer`. -/
structure HandleResponseResult where
  buffer : GPUBuffer
  resolved : Bool
  rejected : Option Error
  sent : List WebGPURequest
deriving DecidableEq

/-- `GPUBuffer::handle_response`.  `none` models the `unreachable` arms and
the `unwrap` of `map_info` on a successful response. -/
def handle_response (b : GPUBuffer)
    (response : Option (Fallible WebGPUResponse)) (sendOk : Bool) :
    Option HandleResponseResult :=
  match response with
  | none => none
  | some (Fallible.Ok (WebGPUResponse.BufferMapAsyncBytes bytes)) =>
    match b.map_info with
    | none => none
    | some m_info =>
      some { buffer := { b with map_info := some { m_info with mapping := bytes },
                                state := GPUBufferState.Mapped,
                                map_promise := none },
             resolved := true, rejected := none,
             sent := if sendOk then [WebGPURequest.BufferMapComplete] else [] }
  | some (Fallible.Ok WebGPUResponse.other) => none
  | some (Fallible.Err _) =>
    some { buffer := { b with map_promise := none },
           resolved := false, rejected := some Error.abort,
           sent := if sendOk then [WebGPURequest.BufferMapComplete] else [] }

/-- `true` exactly when a `GetMappedRange` run returned successfully (no
panic, no `Err`). -/
def getMappedRangeOk (r : Option (Fallible GPUBuffer)) : Bool :=
  match r with
  | some (Fallible.Ok _) => true
  | _ => false

/-! ### Concrete buffer fixtures used by the claim theorems -/

/-- A mapping region as created by `MapAsync(offset = 0, size = 16)`. -/
def mi1 : GPUBufferMapInfo :=
  { mapping := [], mapping_range := (0, 16), mapped_ranges := [],
    js_buffers := [], map_mode := some GPUMapModeConstants.READ }

/-- A buffer with a map request outstanding: state `MappingPending`, pending
promise `0`, region `mi1`. -/
def b1 : GPUBuffer :=
  { state := GPUBufferState.MappingPending, size := 16,
    map_promise := some 0, map_info := some mi1 }

/-- A second buffer with a map request outstanding, used to exercise a
repeated `MapAsync` call. -/
def b3 : GPUBuffer :=
  { state := GPUBufferState.MappingPending, size := 16,
    map_promise := some 0, map_info := some mi1 }

/-- A freshly created unmapped buffer of size 10. -/
def b4 : GPUBuffer :=
  { state := GPUBufferState.Unmapped, size := 10,
    map_promise := none, map_info := none }

/-- The mapping region after `MapAsync(offset = 8, size = 8)` on a 16-byte
buffer followed by a successful 8-byte response: the storage holds the 8
returned bytes while `mapping_range` is `[8, 16)`. -/
def mi5 : GPUBufferMapInfo :=
  { mapping := List.replicate 8 0, mapping_range := (8, 16), mapped_ranges := [],
    js_buffers := [], map_mode := some GPUMapModeConstants.READ }

/-- The mapped buffer holding `mi5`. -/
def b5 : GPUBuffer :=
  { state := GPUBufferState.Mapped, size := 16, map_promise := none,
    map_info := some mi5 }

/-- A full-buffer mapping whose storage covers the whole range. -/
def mi5w : GPUBufferMapInfo :=
  { mapping := List.replicate 16 0, mapping_range := (0, 16), mapped_ranges := [],
    js_buffers := [], map_mode := some GPUMapModeConstants.WRITE }

/-- The mapped buffer holding `mi5w`. -/
def b5w : GPUBuffer :=
  { state := GPUBufferState.Mapped, size := 16, map_promise := none,
    map_info := some mi5w }

/-- An ordinary unmapped buffer: `map_info` is `None`. -/
def b6 : GPUBuffer :=
  { state := GPUBufferState.Unmapped, size := 16,
    map_promise := none, map_info := none }

/-- A mapping narrower than the buffer: `mapping_range = [0, 8)` inside a
16-byte buffer, storage covering all 16 bytes. -/
def mi7 : GPUBufferMapInfo :=
  { mapping := List.replicate 16 0, mapping_range := (0, 8), mapped_ranges := [],
    js_buffers := [], map_mode := some GPUMapModeConstants.READ }

/-- The mapped buffer holding `mi7`. -/
def b7 : GPUBuffer :=
  { state := GPUBufferState.Mapped, size := 16, map_promise := none,
    map_info := some mi7 }

/-- A write mapping with bytes written into storage, one recorded view range
and two live JS buffers. -/
def mi8 : GPUBufferMapInfo :=
  { mapping := [1, 2, 3, 4, 5, 6, 7, 8], mapping_range := (0, 8),
    mapped_ranges := [(0, 4)], js_buffers := [10, 11],
    map_mode := some GPUMapModeConstants.WRITE }

/-- The mapped buffer holding `mi8`. -/
def b8 : GPUBuffer :=
  { state := GPUBufferState.Mapped, size := 8, map_promise := none,
    map_info := some mi8 }

/-- An empty pending mapping region. -/
def mi9 : GPUBufferMapInfo :=
  { mapping := [], mapping_range := (0, 4), mapped_ranges := [],
    js_buffers := [], map_mode := some GPUMapModeConstants.READ }

/-- A buffer in `MappingPending` with pending promise `5`. -/
def b9 : GPUBuffer :=
  { state := GPUBufferState.MappingPending, size := 4,
    map_promise := some 5, map_info := some mi9 }

/-- An unmapped buffer of size 10 used to map far beyond its end. -/
def b10 : GPUBuffer :=
  { state := GPUBufferState.Unmapped, size := 10,
    map_promise := none, map_info := none }

/-! ### Claim theorems -/

/-- Claim C1 (code bug evidence): the claim says `destroy()` on a buffer in
state `MappingPending` rejects the outstanding pending map future and moves
the state to `Destroyed`.  The source's `Destroy` reaches `MappingPending`
only through its wildcard arm, which neither rejects nor clears
`map_promise`: on the concrete pending buffer `b1`, `Destroy` performs no
rejection (`rejected = none`), leaves the pending promise in the slot
(`map_promise = some 0`), and still marks the buffer `Destroyed`. -/
theorem destroy_while_pending_leaves_promise_dangling :
    Destroy b1 true true =
      some { buffer := { state := GPUBufferState.Destroyed, size := 16,
                         map_promise := some 0, map_info := some mi1 },
             rejected := none, detached := [],
             sent := [WebGPURequest.DestroyBuffer] } := by
  decide

/-- Claim C2 (code bug evidence): the claim says `map_info` is `Some` iff the
state is `MappingPending`, `Mapped` or `MappedAtCreation` after every
operation.  `Destroy` on the pending buffer `b1` produces a buffer whose
state is `Destroyed` while `map_info` is still `Some`, breaking the
equivalence. -/
theorem destroy_while_pending_breaks_region_invariant :
    (Destroy b1 true true).map
        (fun r => (r.buffer.state, r.buffer.map_info.isSome)) =
      some (GPUBufferState.Destroyed, true) := by
  decide

/-- Claim C3: a `map_async` call with an explicit size on a buffer whose
state is not `Unmapped` immediately rejects the freshly created promise with
an Abort-class error, reports a validation error to the device error scope,
sends no protocol message, and returns the buffer unchanged — so the state,
the `MappingRegion` and the first pending promise are all undisturbed. -/
theorem map_async_not_unmapped_rejects_new_future (b : GPUBuffer)
    (pid mode offset s : Nat) (sendOk : Bool)
    (h : b.state ≠ GPUBufferState.Unmapped) :
    MapAsync b pid mode offset (some s) sendOk =
      { buffer := b, rejected := some Error.abort,
        validation := some "Buffer is not Unmapped", sent := [] } := by
  simp [MapAsync, h]

/-- Witness for claim C3 at the concrete pending buffer `b3`: a second
`map_async` while promise `0` is pending rejects the new promise `1` with
Abort and leaves `b3` (hence `map_promise = some 0`) unchanged. -/
theorem map_async_not_unmapped_rejects_new_future_witness :
    b3.state ≠ GPUBufferState.Unmapped ∧
    MapAsync b3 1 GPUMapModeConstants.READ 0 (some 4) true =
      { buffer := b3, rejected := some Error.abort,
        validation := some "Buffer is not Unmapped", sent := [] } :=
  ⟨by decide,
   map_async_not_unmapped_rejects_new_future b3 1 GPUMapModeConstants.READ 0 4
     true (by decide)⟩

/-- Claim C4: `map_async`'s guard order.  With `size` omitted the effective
size defaults to `size - offset` of the buffer, and an out-of-range offset
rejects the promise with an Operation-class error for every buffer —
regardless of its state, with no state change, no validation-error report and
no protocol message — so the size computation precedes the state check.  With
a size available, a non-`Unmapped` state rejects with Abort (even when the
mode is also invalid, showing the state check precedes the mode check), and
an invalid mode on an `Unmapped` buffer rejects with Abort. -/
theorem map_async_guard_order (b : GPUBuffer) (pid mode offset : Nat)
    (sendOk : Bool) :
    (offset ≥ b.size →
      MapAsync b pid mode offset none sendOk =
        { buffer := b, rejected := some Error.operation,
          validation := none, sent := [] }) ∧
    (offset < b.size →
      MapAsync b pid mode offset none sendOk =
        MapAsync b pid mode offset (some (b.size - offset)) sendOk) ∧
    (∀ s, b.state ≠ GPUBufferState.Unmapped →
      MapAsync b pid mode offset (some s) sendOk =
        { buffer := b, rejected := some Error.abort,
          validation := some "Buffer is not Unmapped", sent := [] }) ∧
    (∀ s, b.state = GPUBufferState.Unmapped → hostMapOf mode = none →
      MapAsync b pid mode offset (some s) sendOk =
        { buffer := b, rejected := some Error.abort,
          validation := some "Invalid MapModeFlags", sent := [] }) := by
  refine ⟨fun h => ?_, fun h => ?_, fun s h => ?_, fun s h hm => ?_⟩
  · simp [MapAsync, h]
  · simp [MapAsync, Nat.not_le.mpr h]
  · simp [MapAsync, h]
  · simp [MapAsync, h, hm]

/-- Witness for claim C4, the spec scenario: a size-10 buffer with
`map_async(offset = 12, size = None)` rejects with an Operation-class error,
keeps the buffer unchanged, reports nothing and sends nothing. -/
theorem map_async_guard_order_witness :
    12 ≥ b4.size ∧
    MapAsync b4 0 GPUMapModeConstants.READ 12 none true =
      { buffer := b4, rejected := some Error.operation,
        validation := none, sent := [] } :=
  ⟨by decide,
   (map_async_guard_order b4 0 GPUMapModeConstants.READ 12 true).1 (by decide)⟩

/-- Claim C5 counterexample: the claim predicts success whenever the four
listed conditions hold on a mapped buffer, but on `b5` — state `Mapped`,
`mapping_range = [8, 16)`, reached by `map_async(offset = 8, size = 8)` on a
16-byte buffer followed by a successful 8-byte response — the request
`get_mapped_range(8, 8)` satisfies every condition (offset aligned to 8, size
a multiple of 4, range inside `mapping_range`, no recorded view) yet the code
panics (`none`): the slice indexes the 8-byte storage with absolute buffer
offsets `[8..16)`. -/
theorem get_mapped_range_valid_but_panics :
    (b5.state = GPUBufferState.Mapped ∧ 8 % 8 = 0 ∧ 8 % 4 = 0 ∧
     mi5.mapping_range.1 ≤ 8 ∧ 8 + 8 ≤ mi5.mapping_range.2 ∧
     (∀ range ∈ mi5.mapped_ranges, 8 + 8 ≤ range.1 ∨ range.2 ≤ 8)) ∧
    GetMappedRange b5 8 (some 8) 0 = none := by
  decide

/-- Claim C5 (amended): on a buffer in state `Mapped` or `MappedAtCreation`,
`get_mapped_range` succeeds exactly when the offset is 8-aligned, the size is
a multiple of 4, `[offset, offset+size)` lies within `mapping_range`, it
overlaps no previously recorded view range, and additionally the backing
storage vector covers `offset + size` bytes (otherwise the slice panics); a
successful call records its range and its JS buffer handle. -/
theorem get_mapped_range_success_iff (b : GPUBuffer)
    (m_info : GPUBufferMapInfo) (offset s jsId : Nat)
    (hinfo : b.map_info = some m_info)
    (hstate : b.state = GPUBufferState.Mapped ∨
      b.state = GPUBufferState.MappedAtCreation) :
    (getMappedRangeOk (GetMappedRange b offset (some s) jsId) = true ↔
      (offset % 8 = 0 ∧ s % 4 = 0 ∧
       m_info.mapping_range.1 ≤ offset ∧
       offset + s ≤ m_info.mapping_range.2 ∧
       (∀ range ∈ m_info.mapped_ranges, offset + s ≤ range.1 ∨ range.2 ≤ offset) ∧
       offset + s ≤ m_info.mapping.length)) ∧
    (getMappedRangeOk (GetMappedRange b offset (some s) jsId) = true →
      GetMappedRange b offset (some s) jsId =
        some (Fallible.Ok { b with map_info := some { m_info with
          mapped_ranges := m_info.mapped_ranges ++ [(offset, offset + s)],
          js_buffers := m_info.js_buffers ++ [jsId] } })) := by
  have hvs : (match b.state with
      | GPUBufferState.Mapped | GPUBufferState.MappedAtCreation => true
      | _ => false) = true := by
    rcases hstate with h | h <;> rw [h]
  have key : GetMappedRange b offset (some s) jsId =
      if (decide (offset % 8 = 0) && decide (s % 4 = 0) &&
          decide (offset ≥ m_info.mapping_range.1) &&
          decide (offset + s ≤ m_info.mapping_range.2) &&
          m_info.mapped_ranges.all
            (fun range => decide (range.1 ≥ offset + s) ||
              decide (range.2 ≤ offset))) = true
      then if offset + s ≤ m_info.mapping.length
           then some (Fallible.Ok { b with map_info := some { m_info with
                  mapped_ranges := m_info.mapped_ranges ++ [(offset, offset + s)],
                  js_buffers := m_info.js_buffers ++ [jsId] } })
           else none
      else some (Fallible.Err Error.operation) := by
    simp only [GetMappedRange, hinfo, hvs, Bool.true_and,
      RANGE_OFFSET_ALIGN_MASK, RANGE_SIZE_ALIGN_MASK]
  have hcond : ((decide (offset % 8 = 0) && decide (s % 4 = 0) &&
      decide (offset ≥ m_info.mapping_range.1) &&
      decide (offset + s ≤ m_info.mapping_range.2) &&
      m_info.mapped_ranges.all
        (fun range => decide (range.1 ≥ offset + s) ||
          decide (range.2 ≤ offset))) = true) ↔
      (offset % 8 = 0 ∧ s % 4 = 0 ∧ m_info.mapping_range.1 ≤ offset ∧
       offset + s ≤ m_info.mapping_range.2 ∧
       ∀ range ∈ m_info.mapped_ranges,
         offset + s ≤ range.1 ∨ range.2 ≤ offset) := by
    simp [List.all_eq_true, and_assoc]
  rw [key]
  split_ifs with hval hlen
  · rcases hcond.mp hval with ⟨h1, h2, h3, h4, h5⟩
    exact ⟨by simp only [getMappedRangeOk, true_iff]
              exact ⟨h1, h2, h3, h4, h5, hlen⟩,
           fun _ => rfl⟩
  · refine ⟨⟨fun hc => absurd hc (by simp [getMappedRangeOk]),
      fun hp => absurd hp.2.2.2.2.2 hlen⟩,
      fun hc => absurd hc (by simp [getMappedRangeOk])⟩
  · refine ⟨⟨fun hc => absurd hc (by simp [getMappedRangeOk]), ?_⟩,
      fun hc => absurd hc (by simp [getMappedRangeOk])⟩
    rintro ⟨h1, h2, h3, h4, h5, h6⟩
    exact absurd (hcond.mpr ⟨h1, h2, h3, h4, h5⟩) hval

/-- Witness for claim C5 at the concrete mapped buffer `b5w`: the fully
covered request `get_mapped_range(0, 8)` succeeds. -/
theorem get_mapped_range_success_iff_witness :
    getMappedRangeOk (GetMappedRange b5w 0 (some 8) 0) = true :=
  ((get_mapped_range_success_iff b5w mi5w 0 8 0 rfl (Or.inl rfl)).1).mpr
    (by decide)

/-- Claim C6 (code bug evidence): the claim says `get_mapped_range` on a
buffer whose state is not `Mapped`/`MappedAtCreation` fails with an
Operation-class error and never panics.  The source unwraps `map_info`
before it ever looks at the state, so on the ordinary unmapped buffer `b6`
(state `Unmapped`, `map_info = None`) the call panics (`none`) instead of
returning an error. -/
theorem get_mapped_range_unmapped_panics :
    GetMappedRange b6 0 (some 4) 0 = none := by
  decide

/-- Claim C7 counterexample: the claim predicts that an omitted size defaults
to `mapping_range.end - offset`.  On `b7` — state `Mapped`, buffer size 16,
`mapping_range = [0, 8)` — that default (8) succeeds, yet
`get_mapped_range(0, None)` returns an Operation-class error because the code
defaults to `size - offset` of the buffer (16), which exceeds
`mapping_range.end`; the two calls therefore differ. -/
theorem get_mapped_range_default_ignores_mapping_range :
    GetMappedRange b7 0 none 0 = some (Fallible.Err Error.operation) ∧
    getMappedRangeOk (GetMappedRange b7 0 (some (mi7.mapping_range.2 - 0)) 0) =
      true ∧
    GetMappedRange b7 0 none 0 ≠
      GetMappedRange b7 0 (some (mi7.mapping_range.2 - 0)) 0 := by
  decide

/-- Claim C7 (amended): in `get_mapped_range`, an omitted size defaults to
the buffer's creation `size` minus `offset` — not `mapping_range.end -
offset` — after checking `offset < size` and failing with an Operation-class
error otherwise. -/
theorem get_mapped_range_default_size (b : GPUBuffer) (offset jsId : Nat) :
    GetMappedRange b offset none jsId =
      if offset ≥ b.size then some (Fallible.Err Error.operation)
      else GetMappedRange b offset (some (b.size - offset)) jsId := by
  by_cases h : offset ≥ b.size
  · simp [GetMappedRange, h]
  · simp [GetMappedRange, h]

/-- Claim C8: `unmap` on a buffer in state `Mapped` or `MappedAtCreation`
detaches every live JS buffer, sends a single unmap notification whose bytes
are exactly the mapping region's current storage content, whose size is
exactly `mapping_range.end - mapping_range.start` and which carries the
recorded map mode (as the `is_map_read` flag) and the range start, then
discards the `MappingRegion` and sets the state to `Unmapped`. -/
theorem unmap_mapped_sends_current_bytes (b : GPUBuffer)
    (m_info : GPUBufferMapInfo)
    (hstate : b.state = GPUBufferState.Mapped ∨
      b.state = GPUBufferState.MappedAtCreation)
    (hinfo : b.map_info = some m_info) :
    Unmap b true =
      some { buffer := { b with state := GPUBufferState.Unmapped,
                                map_info := none },
             rejected := none,
             detached := m_info.js_buffers,
             sent := [WebGPURequest.UnmapBuffer m_info.mapping
                        (decide (m_info.map_mode = some GPUMapModeConstants.READ))
                        m_info.mapping_range.1
                        (m_info.mapping_range.2 - m_info.mapping_range.1)] } := by
  rcases hstate with h | h <;> simp [Unmap, h, hinfo]

/-- Witness for claim C8 at the concrete write-mapped buffer `b8`: the bytes
written into the storage travel verbatim in the notification, with size
`8 - 0 = 8`, both JS buffers are detached and the region is discarded. -/
theorem unmap_mapped_sends_current_bytes_witness :
    Unmap b8 true =
      some { buffer := { state := GPUBufferState.Unmapped, size := 8,
                         map_promise := none, map_info := none },
             rejected := none, detached := [10, 11],
             sent := [WebGPURequest.UnmapBuffer [1, 2, 3, 4, 5, 6, 7, 8]
                        false 0 8] } :=
  unmap_mapped_sends_current_bytes b8 mi8 (Or.inl rfl) rfl

/-- Claim C9: `unmap` on a buffer in state `MappingPending` holding a pending
promise rejects that promise with an Operation-class error, discards the
`MappingRegion`, clears the promise slot and sets the state to `Unmapped`;
`unmap` on a buffer in state `Unmapped` or `Destroyed` is a no-op that sends
no message and leaves the buffer untouched. -/
theorem unmap_pending_rejects_and_idle_noop (b : GPUBuffer) (pid : Nat)
    (sendOk : Bool) :
    (b.state = GPUBufferState.MappingPending → b.map_promise = some pid →
      Unmap b sendOk =
        some { buffer := { b with state := GPUBufferState.Unmapped,
                                  map_info := none, map_promise := none },
               rejected := some Error.operation, detached := [], sent := [] }) ∧
    ((b.state = GPUBufferState.Unmapped ∨ b.state = GPUBufferState.Destroyed) →
      Unmap b sendOk =
        some { buffer := b, rejected := none, detached := [], sent := [] }) := by
  constructor
  · intro h hp
    simp [Unmap, h, hp]
  · rintro (h | h) <;> simp [Unmap, h]

/-- Witness for claim C9 at the concrete pending buffer `b9`: `unmap` rejects
the pending promise `5` with Operation, clears the region and the promise
slot, and moves the state to `Unmapped`. -/
theorem unmap_pending_rejects_and_idle_noop_witness :
    Unmap b9 true =
      some { buffer := { state := GPUBufferState.Unmapped, size := 4,
                         map_promise := none, map_info := none },
             rejected := some Error.operation, detached := [], sent := [] } :=
  (unmap_pending_rejects_and_idle_noop b9 5 true).1 rfl rfl

/-- Claim C10: `map_async` with an explicit size performs no bounds check of
`offset` or `offset + size` against the buffer's size: for every offset and
explicit size, an `Unmapped` buffer with a valid mode and a successful send
transitions to `MappingPending` with `mapping_range = [offset, offset+size)`,
an empty storage vector, the mode recorded and the new promise stored. -/
theorem map_async_explicit_size_no_bounds_check (b : GPUBuffer)
    (pid mode offset s : Nat) (hm : HostMap)
    (hstate : b.state = GPUBufferState.Unmapped)
    (hmode : hostMapOf mode = some hm) :
    MapAsync b pid mode offset (some s) true =
      { buffer := { b with
          state := GPUBufferState.MappingPending,
          map_info := some { mapping := [], mapping_range := (offset, offset + s),
                             mapped_ranges := [], js_buffers := [],
                             map_mode := some mode },
          map_promise := some pid },
        rejected := none, validation := none,
        sent := [WebGPURequest.BufferMapAsync hm (offset, offset + s)] } := by
  simp [MapAsync, hstate, hmode]

/-- Witness for claim C10 at the concrete size-10 buffer `b10`: mapping
`[5, 105)` — far beyond the 10-byte buffer — still succeeds and goes
pending. -/
theorem map_async_explicit_size_no_bounds_check_witness :
    b10.size < 5 + 100 ∧
    MapAsync b10 7 GPUMapModeConstants.READ 5 (some 100) true =
      { buffer := { state := GPUBufferState.MappingPending, size := 10,
                    map_promise := some 7,
                    map_info := some { mapping := [], mapping_range := (5, 105),
                                       mapped_ranges := [], js_buffers := [],
                                       map_mode := some GPUMapModeConstants.READ } },
        rejected := none, validation := none,
        sent := [WebGPURequest.BufferMapAsync HostMap.Read (5, 105)] } :=
  ⟨by decide,
   map_async_explicit_size_no_bounds_check b10 7 GPUMapModeConstants.READ 5 100
     HostMap.Read rfl rfl⟩
